import Mathlib

/-!
Verification of the content-aggregation core of the chat-any extension
(`src/common.ts`, current revision): filter policy, directory walker,
content-resolution fallback chain, and the write/append throttle logic of
`openDirectoryAndFile` / `handleChatOperation`.

The file system is embedded as a tree (`FSEntry`); asynchronous completion
of the concurrent per-entry reads in the walker is embedded as an explicit
completion schedule (`String → List Nat`, a permutation of the awaited
tasks per directory path), since the source pushes results into a shared
array from concurrently running closures.
-/

namespace ChatAny

/-! ## Path helpers (Node `path.basename`, `path.extname`, `path.join`) -/

/-- Node `path.basename`: last `/`-separated component. -/
def basename (s : String) : String :=
  match (s.splitOn "/").getLast? with
  | some b => b
  | none => s

/-- Node `path.extname`: suffix of the basename from its last dot, or the
empty string when the basename has no dot or only a leading dot. -/
def extname (s : String) : String :=
  let b := (basename s).data
  let rev := b.reverse
  let extRev := rev.takeWhile (fun c => c ≠ '.')
  if extRev.length = rev.length then ""
  else if extRev.length + 1 = rev.length then ""
  else String.mk ('.' :: extRev.reverse)

/-- Node `path.join basePath name` for the shapes used by the source. -/
def pjoin (b n : String) : String :=
  if b = "" then n else b ++ "/" ++ n

/-! ## Filter policy (`BINARY_MEDIA_EXTENSIONS`, `IGNORED_PATTERNS`) -/

/-- The source's `BINARY_MEDIA_EXTENSIONS` set. -/
def BINARY_MEDIA_EXTENSIONS : List String :=
  [".jpg", ".jpeg", ".png", ".gif", ".bmp", ".tiff",
   ".mp3", ".wav", ".flac", ".mp4", ".avi", ".mkv",
   ".exe", ".dll", ".bin", ".iso", ".zip", ".rar",
   ".xcodeproj", ".xcworkspace", ".tiktoken"]

/-- `isBinaryOrMediaFile`: the (lower-cased) extension is in the set. -/
def isBinaryOrMediaFile (fileName : String) : Bool :=
  BINARY_MEDIA_EXTENSIONS.contains (extname fileName).toLower

/-- The regex `/^\..+/`: a leading dot followed by at least one
non-newline character. -/
def hiddenMatch (s : String) : Bool :=
  match s.data with
  | '.' :: c :: _ => c != '\n'
  | _ => false

/-- Names matched by `/^(node_modules|dist|build|coverage|tmp|logs|public|assets|vendor)$/`. -/
def IGNORED_EXACT : List String :=
  ["node_modules", "dist", "build", "coverage", "tmp", "logs", "public",
   "assets", "vendor"]

/-- `isIgnoredItem`: some pattern of `IGNORED_PATTERNS` matches the name. -/
def isIgnoredItem (itemName : String) : Bool :=
  IGNORED_EXACT.contains itemName
  || hiddenMatch itemName
  || itemName == "package-lock.json" || itemName == "yarn.lock"
  || itemName == ".vscode" || itemName == ".idea"
  || itemName == ".env" || itemName == ".env.local"
  || itemName == ".cache"
  || itemName == "bower_components" || itemName == "jspm_packages"
  || itemName == ".DS_Store"

/-! ## File-system trees

A directory entry is a plain file (with `none` content when `fs.readFile`
would fail), an enumerable directory, or a directory whose `fs.readdir`
fails (`dirFail`).  `FSList` is a dedicated list type so that all walker
functions are mutual structural recursions that reduce in the kernel. -/

mutual

inductive FSEntry where
  | file (name : String) (content : Option String)
  | dir (name : String) (listing : FSList)
  | dirFail (name : String)

inductive FSList where
  | nil
  | cons (e : FSEntry) (rest : FSList)

end

def FSEntry.name : FSEntry → String
  | .file n _ => n
  | .dir n _ => n
  | .dirFail n => n

/-- `dirent.isDirectory()`: true for both `dir` and `dirFail` (the dirent
knows the kind even when a later `readdir` of the child would fail). -/
def FSEntry.isDir : FSEntry → Bool
  | .file _ _ => false
  | .dir _ _ => true
  | .dirFail _ => true

def FSList.toList : FSList → List FSEntry
  | .nil => []
  | .cons e r => e :: FSList.toList r

/-! ## Directory walker (`readDirectoryContents`)

The source maps an async closure over the entries and lets each closure
`push` its block into the shared `contentParts` array.  Pushes made before
the first `await` (the ignored/binary placeholders) happen during the
synchronous map phase, in enumeration order; every other block is pushed
when its awaited read completes.  The completion order of the awaited
tasks of the directory at `dirPath` is modelled as `sched dirPath`, a list
of indices into the awaited-block list (a permutation when every task
completes exactly once). -/

/-- Reorder the awaited blocks by completion order: the k-th completed
task is the one at index `perm[k]` in enumeration order. -/
def applyPerm (perm : List Nat) (xs : List String) : List String :=
  perm.filterMap (fun i => xs.get? i)

/-- The `contentParts` of one successfully enumerated directory, given the
entry blocks of the second pass tagged with sync/async (`true` = pushed
synchronously). -/
def dirParts (perm : List Nat) (dirPath basePath : String)
    (items : FSList) (blocks : List (Bool × String)) : List String :=
  ["This is a merged representation of: " ++ dirPath ++ "\n===\n",
   "Directory Structure\n===\n",
   basename dirPath ++ "/"]
  ++ ((items.toList.filter (fun e => !isIgnoredItem e.name)).map
        (fun e => "  " ++ pjoin basePath e.name ++ (if e.isDir then "/" else "")))
  ++ ["\n===\nFile Contents\n===\n"]
  ++ (blocks.filter (fun b => b.1)).map (fun b => b.2)
  ++ applyPerm perm ((blocks.filter (fun b => !b.1)).map (fun b => b.2))

/-- The `contentParts` when `fs.readdir dirPath` throws: the header and the
structure-section header were already pushed; the catch pushes the
directory-level placeholder. -/
def dirFailParts (dirPath : String) : List String :=
  ["This is a merged representation of: " ++ dirPath ++ "\n===\n",
   "Directory Structure\n===\n",
   "Directory: " ++ dirPath ++ " (read failed)\n"]

mutual

/-- The block one entry pushes in the second pass of
`readDirectoryContents`, tagged with `true` when the push happens before
any `await` (ignored/binary placeholders). -/
def entryBlock (sched : String → List Nat) (dirPath basePath : String) :
    FSEntry → Bool × String
  | FSEntry.file name content =>
      let rel := pjoin basePath name
      if isIgnoredItem name || isBinaryOrMediaFile name then
        (true, "File: " ++ rel ++ " (content ignored)\n")
      else
        match content with
        | some c => (false, "File: " ++ rel ++ "\n" ++ c ++ "\n")
        | none => (false, "File: " ++ rel ++ " (read failed)\n")
  | FSEntry.dir name listing =>
      let rel := pjoin basePath name
      if isIgnoredItem name || isBinaryOrMediaFile name then
        (true, "File: " ++ rel ++ " (content ignored)\n")
      else
        (false, String.intercalate "\n"
          (dirParts (sched (pjoin dirPath name)) (pjoin dirPath name) rel listing
            (entryBlocks sched (pjoin dirPath name) rel listing)))
  | FSEntry.dirFail name =>
      let rel := pjoin basePath name
      if isIgnoredItem name || isBinaryOrMediaFile name then
        (true, "File: " ++ rel ++ " (content ignored)\n")
      else
        (false, String.intercalate "\n" (dirFailParts (pjoin dirPath name)))

/-- The tagged blocks of all entries, in enumeration order. -/
def entryBlocks (sched : String → List Nat) (dirPath basePath : String) :
    FSList → List (Bool × String)
  | FSList.nil => []
  | FSList.cons e rest =>
      entryBlock sched dirPath basePath e :: entryBlocks sched dirPath basePath rest

end

/-- The `contentParts` array of `readDirectoryContents` at join time
(`none` listing = the top-level `fs.readdir` threw). -/
def readDirectoryParts (sched : String → List Nat) (dirPath basePath : String) :
    Option FSList → List String
  | none => dirFailParts dirPath
  | some items =>
      dirParts (sched dirPath) dirPath basePath items
        (entryBlocks sched dirPath basePath items)

/-- `readDirectoryContents`: `contentParts.join('\n')`. -/
def readDirectoryContents (sched : String → List Nat) (dirPath basePath : String)
    (listing : Option FSList) : String :=
  String.intercalate "\n" (readDirectoryParts sched dirPath basePath listing)

/-! ## Substring test (kernel-executable helper for the scenario claims) -/

/-- `listPrefixCheck p s`: `p` is an initial segment of `s`. -/
def listPrefixCheck : List Char → List Char → Bool
  | [], _ => true
  | _ :: _, [] => false
  | a :: as, b :: bs => a == b && listPrefixCheck as bs

def strContainsAux (p : List Char) : List Char → Bool
  | [] => listPrefixCheck p []
  | c :: rest => listPrefixCheck p (c :: rest) || strContainsAux p rest

/-- `strContains pat s`: `pat` occurs as a contiguous substring of `s`. -/
def strContains (pat s : String) : Bool :=
  strContainsAux pat.data s.data

/-! ## File counting (`countFiles`)

`countFiles` recurses with a plain `await fs.readdir` and NO try/catch, so
an enumeration failure anywhere in the non-ignored part of the subtree
rejects the whole count; this is modelled with `Except`. -/

mutual

/-- `countFiles(itemPath)`: 1 for a non-binary plain file, recursive sum
for a directory (enumeration failure propagates), 0 otherwise. -/
def countFilesE : FSEntry → Except Unit Nat
  | FSEntry.file name _ => Except.ok (if isBinaryOrMediaFile name then 0 else 1)
  | FSEntry.dir _ items => countListE items
  | FSEntry.dirFail _ => Except.error ()

/-- The `for` loop of `countFiles` over a directory listing: skip ignored
names, otherwise accumulate the child counts left to right. -/
def countListE : FSList → Except Unit Nat
  | FSList.nil => Except.ok 0
  | FSList.cons e rest =>
      if isIgnoredItem e.name then countListE rest
      else
        match countFilesE e with
        | Except.error u => Except.error u
        | Except.ok c =>
            match countListE rest with
            | Except.error u => Except.error u
            | Except.ok r => Except.ok (c + r)

end

mutual

/-- Spec-side count, following the spec's words: "the file count equals
the number of non-ignored, non-binary plain files anywhere in the
subtree, with directories and Ignored/BinaryOrMedia entries contributing
zero". -/
def specFileCount : FSEntry → Nat
  | FSEntry.file name _ => if isBinaryOrMediaFile name then 0 else 1
  | FSEntry.dir _ items => specFileCountList items
  | FSEntry.dirFail _ => 0

def specFileCountList : FSList → Nat
  | FSList.nil => 0
  | FSList.cons e rest =>
      (if isIgnoredItem e.name then 0 else specFileCount e) + specFileCountList rest

end

mutual

/-- No enumeration failure in the part of the subtree `countFiles` visits
(ignored children are never entered). -/
def enumOkE : FSEntry → Bool
  | FSEntry.file _ _ => true
  | FSEntry.dir _ items => enumOkList items
  | FSEntry.dirFail _ => false

def enumOkList : FSList → Bool
  | FSList.nil => true
  | FSList.cons e rest => (isIgnoredItem e.name || enumOkE e) && enumOkList rest

end

/-! ## Structure pass (`getDirectoryStructure`)

`getDirectoryStructure` has no try/catch either: a `readdir` failure
rejects.  The nested directory call is inlined (it is the composition of
the loop below with the indent-and-join step, exactly as in
`getDirectoryStructure` itself). -/

/-- The loop body of `getDirectoryStructure`: the `structureParts` pushed
for one listing (a child directory contributes its own fully rendered
structure string as a single part). -/
def structLoop (basePath : String) : FSList → Except Unit (List String)
  | FSList.nil => Except.ok []
  | FSList.cons e rest =>
      if isIgnoredItem e.name then structLoop basePath rest
      else
        match e with
        | FSEntry.file n _ =>
            match structLoop basePath rest with
            | Except.error u => Except.error u
            | Except.ok r => Except.ok (pjoin basePath n :: r)
        | FSEntry.dirFail _ => Except.error ()
        | FSEntry.dir n sub =>
            match structLoop (pjoin basePath n) sub with
            | Except.error u => Except.error u
            | Except.ok subParts =>
                let s := String.intercalate "\n"
                  (subParts.map (fun l => "  " ++ l))
                match structLoop basePath rest with
                | Except.error u => Except.error u
                | Except.ok r => Except.ok ((pjoin basePath n ++ "/") :: s :: r)

/-- `getDirectoryStructure(dirPath, basePath)`:
`structureParts.map(l => "  " + l).join("\n")`, rejecting when any
`readdir` in the subtree fails. -/
def getDirectoryStructure (basePath : String) (listing : Option FSList) :
    Except Unit String :=
  match listing with
  | none => Except.error ()
  | some items =>
      match structLoop basePath items with
      | Except.error u => Except.error u
      | Except.ok parts =>
          Except.ok (String.intercalate "\n" (parts.map (fun l => "  " ++ l)))

/-! ## Selection source (`getContentFromSelectedItems`)

A selected Finder item is a host-supplied path together with the
file-system subtree found there; `item.path` is the first component and
`path.basename(item.path)` must agree with the tree's root name for the
walker's relative paths, which the model takes from the path alone. -/

/-- The file-count loop: `totalFiles += countFiles(item.path)` for every
item whose basename is not ignored; a `countFiles` rejection escapes to
the enclosing catch. -/
def countPhase : List (String × FSEntry) → Except Unit Nat
  | [] => Except.ok 0
  | (p, e) :: rest =>
      if isIgnoredItem (basename p) then countPhase rest
      else
        match countFilesE e with
        | Except.error u => Except.error u
        | Except.ok c =>
            match countPhase rest with
            | Except.error u => Except.error u
            | Except.ok r => Except.ok (c + r)

/-- The overall-structure loop: for each non-ignored item, a directory
contributes `itemName/` and its `getDirectoryStructure` (whose rejection
escapes), a file contributes `itemName`. -/
def selStructurePhase : List (String × FSEntry) → Except Unit (List String)
  | [] => Except.ok []
  | (p, e) :: rest =>
      let itemName := basename p
      if isIgnoredItem itemName then selStructurePhase rest
      else
        match e with
        | FSEntry.file _ _ =>
            match selStructurePhase rest with
            | Except.error u => Except.error u
            | Except.ok r => Except.ok (itemName :: r)
        | FSEntry.dir _ items =>
            match getDirectoryStructure itemName (some items) with
            | Except.error u => Except.error u
            | Except.ok s =>
                match selStructurePhase rest with
                | Except.error u => Except.error u
                | Except.ok r => Except.ok ((itemName ++ "/") :: s :: r)
        | FSEntry.dirFail _ => Except.error ()

/-- The block one selected item pushes in the detailed-contents pass,
tagged `true` when pushed before the first `await` (only the
ignored-item placeholder; every other branch first awaits
`getFileType`). -/
def selEntryBlock (sched : String → List Nat) (item : String × FSEntry) :
    Bool × String :=
  let itemPath := item.1
  let itemName := basename itemPath
  if isIgnoredItem itemName then (true, itemPath ++ " (content ignored)\n")
  else
    match item.2 with
    | FSEntry.dir _ items =>
        (false, readDirectoryContents sched itemPath itemName (some items))
    | FSEntry.dirFail _ =>
        (false, readDirectoryContents sched itemPath itemName none)
    | FSEntry.file _ content =>
        if isBinaryOrMediaFile itemPath then
          (false, "File: " ++ itemName ++ " (binary or media file, content ignored)\n")
        else
          match content with
          | some c => (false, "File: " ++ itemName ++ "\n" ++ c ++ "\n")
          | none => (false, "File: " ++ itemName ++ " (read failed)\n")

/-- `getContentFromSelectedItems`.  `topPerm` is the completion order of
the per-item awaited pushes of the detailed-contents pass.  The
function-level try/catch turns a rejection of the count or structure
phase into a plain return of whatever had been pushed so far, hence the
truncated outputs in the error branches. -/
def getContentFromSelectedItems (sched : String → List Nat) (topPerm : List Nat)
    (sel : List (String × FSEntry)) : String :=
  if sel.isEmpty then ""
  else
    match countPhase sel with
    | Except.error _ => ""
    | Except.ok totalFiles =>
      let p1 := "Total Files: " ++ toString totalFiles ++ "\n"
      let p2 := "This is a merged representation of selected items:\n===\n"
      let p3 := "Overall Directory Structure\n===\n"
      match selStructurePhase sel with
      | Except.error _ => String.intercalate "\n" [p1, p2, p3]
      | Except.ok structureParts =>
        let p4 := String.intercalate "\n" structureParts
        let p5 := "\n===\nDetailed Contents\n===\n"
        let blocks := sel.map (selEntryBlock sched)
        let syncParts := (blocks.filter (fun b => b.1)).map (fun b => b.2)
        let asyncParts :=
          applyPerm topPerm ((blocks.filter (fun b => !b.1)).map (fun b => b.2))
        String.intercalate "\n" ([p1, p2, p3, p4, p5] ++ syncParts ++ asyncParts)

/-! ## Aggregate writer (`openDirectoryAndFile`, `handleChatOperation`) -/

inductive Op where
  | write
  | append
deriving DecidableEq

/-- `parseInt(lastOpenTimeString)` with the source's falsiness guard: a
missing or empty stored value means 0. -/
def lastOpenOf (stored : Option String) : Int :=
  match stored with
  | none => 0
  | some s => if s.isEmpty then 0 else (s.toInt?.getD 0)

/-- `preferences.customEditor?.name || 'Cursor'`. -/
def editorAppOf (pref : Option String) : String :=
  match pref with
  | none => "Cursor"
  | some n => if n = "" then "Cursor" else n

/-- Observable outcome of `openDirectoryAndFile`: whether the editor was
launched, the stored `lastCursorOpenTime` afterwards, whether the
"Append successful" HUD was shown, and whether the scroll-to-end
AppleScript ran. -/
structure OpenResult where
  editorOpened : Bool
  storedAfter : Option String
  hudShown : Bool
  scrollIssued : Bool
deriving DecidableEq

/-- `openDirectoryAndFile(operation)` as a function of the current time,
the stored timestamp and the editor preference. -/
def openDirectoryAndFile (operation : Op) (currentTime : Int)
    (stored : Option String) (pref : Option String) : OpenResult :=
  let editorApp := editorAppOf pref
  let lastOpenTime := lastOpenOf stored
  let operation1 := if currentTime - lastOpenTime > 600000 then Op.write else operation
  if operation1 = Op.write ∨ currentTime - lastOpenTime > 60000 then
    { editorOpened := true
      storedAfter := some (toString currentTime)
      hudShown := false
      scrollIssued := decide (operation1 = Op.append ∧ editorApp = "Cursor") }
  else
    { editorOpened := false
      storedAfter := stored
      hudShown := true
      scrollIssued := false }

/-- Persistent state shared across invocations: destination directory
presence, `context.md` content (`none` = absent), stored
`lastCursorOpenTime`. -/
structure SysState where
  dirExists : Bool
  fileContent : Option String
  stored : Option String
deriving DecidableEq

/-- Observable outcome of one `handleChatOperation` invocation. -/
structure ChatResult where
  state : SysState
  madeDir : Bool
  queriedText : Bool
  queriedClipboard : Bool
  hud : Option String
  appendHud : Bool
  editorOpened : Bool
  scrollIssued : Bool
deriving DecidableEq

/-- The message of `showErrorHUD` when all three sources are empty. -/
def noContentMsg : String := "No files or text selected, and clipboard is empty"

/-- `handleChatOperation(operation)`.  `selText`/`clip` are the host
replies (`none` = the query failed or held nothing, which the source
normalises to the empty string). -/
def handleChatOperation (operation : Op) (currentTime : Int)
    (pref : Option String) (sched : String → List Nat) (topPerm : List Nat)
    (sel : List (String × FSEntry)) (selText clip : Option String)
    (st : SysState) : ChatResult :=
  let madeDir := !st.dirExists
  let text0 := getContentFromSelectedItems sched topPerm sel
  let text1 := if text0 = "" then selText.getD "" else text0
  let text2 := if text1 = "" then clip.getD "" else text1
  if text2 = "" then
    { state := { dirExists := true, fileContent := st.fileContent, stored := st.stored }
      madeDir := madeDir
      queriedText := decide (text0 = "")
      queriedClipboard := decide (text1 = "")
      hud := some noContentMsg
      appendHud := false
      editorOpened := false
      scrollIssued := false }
  else
    let newContent :=
      match operation with
      | Op.write => text2
      | Op.append => (st.fileContent.getD "") ++ "\n\n\n" ++ text2
    let res := openDirectoryAndFile operation currentTime st.stored pref
    { state := { dirExists := true, fileContent := some newContent, stored := res.storedAfter }
      madeDir := madeDir
      queriedText := decide (text0 = "")
      queriedClipboard := decide (text1 = "")
      hud := none
      appendHud := res.hudShown
      editorOpened := res.editorOpened
      scrollIssued := res.scrollIssued }

/-! ## General lemmas -/

theorem getContent_nil (sched : String → List Nat) (tp : List Nat) :
    getContentFromSelectedItems sched tp [] = "" := rfl

/-- With no Finder selection and a non-empty highlighted text, one
invocation resolves the highlighted text and performs the write/append
plus the editor-open step. -/
theorem handleChat_selText (op : Op) (now : Int) (pref : Option String)
    (sched : String → List Nat) (tp : List Nat) (txt : String)
    (clip : Option String) (st : SysState) (htxt : txt ≠ "") :
    handleChatOperation op now pref sched tp [] (some txt) clip st =
      { state := { dirExists := true
                   fileContent := some (match op with
                     | Op.write => txt
                     | Op.append => (st.fileContent.getD "") ++ "\n\n\n" ++ txt)
                   stored := (openDirectoryAndFile op now st.stored pref).storedAfter }
        madeDir := !st.dirExists
        queriedText := true
        queriedClipboard := false
        hud := none
        appendHud := (openDirectoryAndFile op now st.stored pref).hudShown
        editorOpened := (openDirectoryAndFile op now st.stored pref).editorOpened
        scrollIssued := (openDirectoryAndFile op now st.stored pref).scrollIssued } := by
  simp [handleChatOperation, getContent_nil, htxt]

mutual

/-- Induction over `FSEntry` mirroring the walker recursions. -/
def fsInductE (P : FSEntry → Prop) (Q : FSList → Prop)
    (hfile : ∀ n c, P (FSEntry.file n c))
    (hfail : ∀ n, P (FSEntry.dirFail n))
    (hdir : ∀ n l, Q l → P (FSEntry.dir n l))
    (hnil : Q FSList.nil)
    (hcons : ∀ e l, P e → Q l → Q (FSList.cons e l)) : ∀ e, P e
  | FSEntry.file n c => hfile n c
  | FSEntry.dirFail n => hfail n
  | FSEntry.dir n l => hdir n l (fsInductL P Q hfile hfail hdir hnil hcons l)

/-- Induction over `FSList` mirroring the walker recursions. -/
def fsInductL (P : FSEntry → Prop) (Q : FSList → Prop)
    (hfile : ∀ n c, P (FSEntry.file n c))
    (hfail : ∀ n, P (FSEntry.dirFail n))
    (hdir : ∀ n l, Q l → P (FSEntry.dir n l))
    (hnil : Q FSList.nil)
    (hcons : ∀ e l, P e → Q l → Q (FSList.cons e l)) : ∀ l, Q l
  | FSList.nil => hnil
  | FSList.cons e r =>
      hcons e r (fsInductE P Q hfile hfail hdir hnil hcons e)
        (fsInductL P Q hfile hfail hdir hnil hcons r)

end

theorem pjoin_length_lt (d n : String) (hd : d ≠ "") :
    d.length < (pjoin d n).length := by
  unfold pjoin
  rw [if_neg hd]
  have h1 : ("/" : String).length = 1 := rfl
  simp only [String.length_append]
  omega

theorem pjoin_ne_empty (d n : String) (hd : d ≠ "") : pjoin d n ≠ "" := by
  intro h
  have h1 := pjoin_length_lt d n hd
  rw [h] at h1
  simp at h1

/-- The walker's output below `d` depends on the schedule only at paths
longer than `d` (every descendant path strictly grows). -/
theorem entryBlocks_sched_congr (sched₁ sched₂ : String → List Nat) :
    ∀ l d b, d ≠ "" → (∀ p : String, d.length < p.length → sched₁ p = sched₂ p) →
      entryBlocks sched₁ d b l = entryBlocks sched₂ d b l := by
  refine fsInductL
    (fun e => ∀ d b, d ≠ "" →
      (∀ p : String, d.length < p.length → sched₁ p = sched₂ p) →
      entryBlock sched₁ d b e = entryBlock sched₂ d b e)
    (fun l => ∀ d b, d ≠ "" →
      (∀ p : String, d.length < p.length → sched₁ p = sched₂ p) →
      entryBlocks sched₁ d b l = entryBlocks sched₂ d b l)
    ?_ ?_ ?_ ?_ ?_
  · intro n c d b _ _
    simp [entryBlock]
  · intro n d b _ _
    simp [entryBlock]
  · intro n l ih d b hd hagree
    simp only [entryBlock]
    by_cases hig : (isIgnoredItem n || isBinaryOrMediaFile n) = true
    · simp [hig]
    · have hs : sched₁ (pjoin d n) = sched₂ (pjoin d n) :=
        hagree _ (pjoin_length_lt d n hd)
      have hsub : entryBlocks sched₁ (pjoin d n) (pjoin b n) l
          = entryBlocks sched₂ (pjoin d n) (pjoin b n) l :=
        ih (pjoin d n) (pjoin b n) (pjoin_ne_empty d n hd)
          (fun p hp => hagree p (Nat.lt_trans (pjoin_length_lt d n hd) hp))
      simp [hig, hs, hsub]
  · intro d b _ _
    rfl
  · intro e l ihe ihl d b hd hagree
    simp only [entryBlocks]
    rw [ihe d b hd hagree, ihl d b hd hagree]

/-! ## Claim theorems -/

/-- The two-file directory used to observe completion-order dependence. -/
def cexListing : FSList :=
  FSList.cons (FSEntry.file "a.txt" (some "A"))
    (FSList.cons (FSEntry.file "b.txt" (some "B")) FSList.nil)

/-- Claim C1 (counterexample): two completion orders of the same two
concurrent file reads — `[0, 1]` and `[1, 0]`, both permutations of each
other — give different walker outputs over the identical directory tree,
so the output is not independent of completion timing. -/
theorem readDirectory_completion_order_cex :
    (([0, 1] : List Nat).Perm [1, 0])
    ∧ readDirectoryContents (fun _ => [0, 1]) "d" "" (some cexListing)
      ≠ readDirectoryContents (fun _ => [1, 0]) "d" "" (some cexListing) :=
  of_decide_eq_true (by with_unfolding_all rfl)

/-- Claim C1 (amended): the block order does depend on the completion
schedule, but only as a permutation of the awaited blocks of the
directory whose completion order changed: two schedules that agree away
from `dirPath` and are permutations of each other at `dirPath` give
outputs that are part-for-part permutations, everything outside the
awaited blocks (header, structure section, synchronous placeholders)
being identical. -/
theorem readDirectory_completion_schedule_perm
    (sched₁ sched₂ : String → List Nat) (dirPath basePath : String)
    (items : FSList) (hd : dirPath ≠ "")
    (hagree : ∀ p : String, p ≠ dirPath → sched₁ p = sched₂ p)
    (hperm : (sched₁ dirPath).Perm (sched₂ dirPath)) :
    (readDirectoryParts sched₁ dirPath basePath (some items)).Perm
      (readDirectoryParts sched₂ dirPath basePath (some items)) := by
  have hB : entryBlocks sched₁ dirPath basePath items
      = entryBlocks sched₂ dirPath basePath items := by
    apply entryBlocks_sched_congr sched₁ sched₂ items dirPath basePath hd
    intro p hp
    apply hagree
    intro hpe
    subst hpe
    omega
  simp only [readDirectoryParts, dirParts, hB, applyPerm]
  exact List.Perm.append_left _ (List.Perm.filterMap _ hperm)

/-- Claim C1 witness: swapping only the completion order at "d" permutes
the parts of the rendered output. -/
theorem readDirectory_completion_schedule_perm_app :
    (readDirectoryParts (fun _ => [0, 1]) "d" "" (some cexListing)).Perm
      (readDirectoryParts (fun p => if p = "d" then [1, 0] else [0, 1]) "d" ""
        (some cexListing)) :=
  readDirectory_completion_schedule_perm (fun _ => [0, 1])
    (fun p => if p = "d" then [1, 0] else [0, 1]) "d" "" cexListing
    (of_decide_eq_true (by with_unfolding_all rfl))
    (fun p hp => by simp [hp])
    (of_decide_eq_true (by with_unfolding_all rfl))

/-- Claim C8: invoking `write` with resolved content "X" and then
`append` with resolved content "Y", with the stored timestamp five
minutes (300000 ms) before the append, leaves the destination document
as "X", then the separator, then "Y", in that order. -/
theorem write_then_append_order :
    (handleChatOperation Op.append 1300000 none (fun _ => []) [] [] (some "Y") none
      (handleChatOperation Op.write 1000000 none (fun _ => []) [] [] (some "X") none
        { dirExists := true, fileContent := none, stored := none }).state).state.fileContent
      = some ("X" ++ "\n\n\n" ++ "Y")
    ∧ (handleChatOperation Op.write 1000000 none (fun _ => []) [] [] (some "X") none
        { dirExists := true, fileContent := none, stored := none }).state.stored
      = some "1000000" :=
  of_decide_eq_true (by with_unfolding_all rfl)

/-- Claim C2 (failing input): `write "X"` at t = 1000000 ms, then
`append "Y"` at t = 1601000 ms (601 s later, past the 10-minute bound).
The code still appends with the separator — the reclassification
`operation = 'write'` inside `openDirectoryAndFile` happens after
`handleChatOperation` has already run `fs.appendFile`, so it only makes
the editor open unconditionally and suppresses the scroll command; the
destination is never overwritten to "Y" as the claim requires. -/
theorem stale_append_still_appends :
    ((handleChatOperation Op.append 1601000 none (fun _ => []) [] [] (some "Y") none
      (handleChatOperation Op.write 1000000 none (fun _ => []) [] [] (some "X") none
        { dirExists := true, fileContent := none, stored := none }).state).state.fileContent
      = some ("X" ++ "\n\n\n" ++ "Y"))
    ∧ ((handleChatOperation Op.append 1601000 none (fun _ => []) [] [] (some "Y") none
      (handleChatOperation Op.write 1000000 none (fun _ => []) [] [] (some "X") none
        { dirExists := true, fileContent := none, stored := none }).state).state.fileContent
      ≠ some "Y")
    ∧ ((handleChatOperation Op.append 1601000 none (fun _ => []) [] [] (some "Y") none
      (handleChatOperation Op.write 1000000 none (fun _ => []) [] [] (some "X") none
        { dirExists := true, fileContent := none, stored := none }).state).editorOpened
      = true)
    ∧ ((handleChatOperation Op.append 1601000 none (fun _ => []) [] [] (some "Y") none
      (handleChatOperation Op.write 1000000 none (fun _ => []) [] [] (some "X") none
        { dirExists := true, fileContent := none, stored := none }).state).scrollIssued
      = false) :=
  of_decide_eq_true (by with_unfolding_all rfl)

/-- Claim C7 (amended): with all three sources empty the destination
document and the stored timestamp are untouched, no editor launch and no
append HUD happen, and the "nothing to aggregate" message is shown — but
the destination directory is still created when absent
(`ensureDirectoryExists` runs before source resolution). -/
theorem empty_sources_no_write (op : Op) (now : Int) (pref : Option String)
    (sched : String → List Nat) (tp : List Nat) (st : SysState) :
    (handleChatOperation op now pref sched tp [] none none st).state.fileContent
        = st.fileContent
    ∧ (handleChatOperation op now pref sched tp [] none none st).state.stored = st.stored
    ∧ (handleChatOperation op now pref sched tp [] none none st).editorOpened = false
    ∧ (handleChatOperation op now pref sched tp [] none none st).appendHud = false
    ∧ (handleChatOperation op now pref sched tp [] none none st).scrollIssued = false
    ∧ (handleChatOperation op now pref sched tp [] none none st).hud = some noContentMsg
    ∧ (handleChatOperation op now pref sched tp [] none none st).madeDir = !st.dirExists
    ∧ (handleChatOperation op now pref sched tp [] none none st).state.dirExists = true :=
  ⟨rfl, rfl, rfl, rfl, rfl, rfl, rfl, rfl⟩

/-- Claim C7 (counterexample): when the destination directory is absent,
an empty-sources invocation still creates it — an observable effect
besides the notification, so the notification is not the only observable
effect as claimed. -/
theorem empty_sources_mkdir_cex :
    ((handleChatOperation Op.write 1000000 none (fun _ => []) [] [] none none
      { dirExists := false, fileContent := some "OLD", stored := none }).madeDir = true)
    ∧ ((handleChatOperation Op.write 1000000 none (fun _ => []) [] [] none none
      { dirExists := false, fileContent := some "OLD", stored := none }).hud
        = some noContentMsg)
    ∧ ((handleChatOperation Op.write 1000000 none (fun _ => []) [] [] none none
      { dirExists := false, fileContent := some "OLD", stored := none }).state.fileContent
        = some "OLD") :=
  of_decide_eq_true (by with_unfolding_all rfl)

/-- Claim C9: an `append` taken at most one minute after the stored
last-open time stays in the notification-only branch and leaves the
stored timestamp unchanged; and in general the timestamp is written only
by the branch that actually launches the editor. -/
theorem notification_branch_keeps_timestamp :
    (∀ (now : Int) (stored pref : Option String),
      now - lastOpenOf stored ≤ 60000 →
      (openDirectoryAndFile Op.append now stored pref).editorOpened = false ∧
      (openDirectoryAndFile Op.append now stored pref).storedAfter = stored ∧
      (openDirectoryAndFile Op.append now stored pref).hudShown = true)
    ∧ (∀ (op : Op) (now : Int) (stored pref : Option String),
      (openDirectoryAndFile op now stored pref).editorOpened = false →
      (openDirectoryAndFile op now stored pref).storedAfter = stored) := by
  constructor
  · intro now stored pref h
    simp only [openDirectoryAndFile]
    split
    · exfalso
      omega
    · split
      · rename_i h2
        exfalso
        rcases h2 with h2 | h2
        · exact absurd h2 (by decide)
        · omega
      · exact ⟨rfl, rfl, rfl⟩
  · intro op now stored pref
    simp only [openDirectoryAndFile]
    split <;> split <;> intro h
    · exact absurd h (by simp)
    · rfl
    · exact absurd h (by simp)
    · rfl

/-- Claim C9 witness: at now = 100000 with stored timestamp "41000"
(59 s earlier) the append leaves the stored value untouched. -/
theorem notification_branch_keeps_timestamp_app :
    (openDirectoryAndFile Op.append 100000 (some "41000") none).editorOpened = false ∧
    (openDirectoryAndFile Op.append 100000 (some "41000") none).storedAfter = some "41000" ∧
    (openDirectoryAndFile Op.append 100000 (some "41000") none).hudShown = true :=
  notification_branch_keeps_timestamp.1 100000 (some "41000") none
    (of_decide_eq_true (by with_unfolding_all rfl))

/-- Claim C10: with no stored timestamp (key absent or empty) the writer
computes a last-open time of 0, so any append at a realistic clock
(now > 600000 ms) is reclassified as `write` for the editor decision:
the editor is launched, the current time is stored, and no scroll
command is issued. -/
theorem first_append_reclassified_write : ∀ (now : Int) (pref stored : Option String),
    (stored = none ∨ stored = some "") → now > 600000 →
    lastOpenOf stored = 0 ∧
    (openDirectoryAndFile Op.append now stored pref).editorOpened = true ∧
    (openDirectoryAndFile Op.append now stored pref).storedAfter = some (toString now) ∧
    (openDirectoryAndFile Op.append now stored pref).scrollIssued = false ∧
    (openDirectoryAndFile Op.append now stored pref).hudShown = false := by
  intro now pref stored hstored hnow
  have h0 : lastOpenOf stored = 0 := by
    rcases hstored with h | h <;> subst h <;> rfl
  have h1 : now - lastOpenOf stored > 600000 := by omega
  refine ⟨h0, ?_, ?_, ?_, ?_⟩ <;>
    simp only [openDirectoryAndFile, if_pos h1, if_pos (Or.inl rfl)] <;> rfl

/-- Claim C10 witness: the first-ever append at now = 1000000 ms. -/
theorem first_append_reclassified_write_app :
    lastOpenOf none = 0 ∧
    (openDirectoryAndFile Op.append 1000000 none none).editorOpened = true ∧
    (openDirectoryAndFile Op.append 1000000 none none).storedAfter = some "1000000" ∧
    (openDirectoryAndFile Op.append 1000000 none none).scrollIssued = false ∧
    (openDirectoryAndFile Op.append 1000000 none none).hudShown = false :=
  first_append_reclassified_write 1000000 none none (Or.inl rfl)
    (of_decide_eq_true (by with_unfolding_all rfl))

/-- Claim C3: for an append with a stored last-open time 59 s before now,
the editor is not relaunched, the "Append successful" HUD is shown, the
timestamp is unchanged and the text is still appended to the file; 61 s
before now, the editor is relaunched and the timestamp is set to now. -/
theorem append_throttle_boundary :
    ∀ (now : Int) (st : SysState) (pref : Option String) (txt : String),
    txt ≠ "" →
    ((lastOpenOf st.stored = now - 59000 →
      (handleChatOperation Op.append now pref (fun _ => []) [] [] (some txt) none st).editorOpened
          = false ∧
      (handleChatOperation Op.append now pref (fun _ => []) [] [] (some txt) none st).appendHud
          = true ∧
      (handleChatOperation Op.append now pref (fun _ => []) [] [] (some txt) none st).state.stored
          = st.stored ∧
      (handleChatOperation Op.append now pref (fun _ => []) [] [] (some txt) none st).state.fileContent
          = some ((st.fileContent.getD "") ++ "\n\n\n" ++ txt))
    ∧ (lastOpenOf st.stored = now - 61000 →
      (handleChatOperation Op.append now pref (fun _ => []) [] [] (some txt) none st).editorOpened
          = true ∧
      (handleChatOperation Op.append now pref (fun _ => []) [] [] (some txt) none st).state.stored
          = some (toString now))) := by
  intro now st pref txt htxt
  rw [handleChat_selText Op.append now pref (fun _ => []) [] txt none st htxt]
  constructor
  · intro h59
    simp only [openDirectoryAndFile]
    split
    · exfalso
      omega
    · split
      · rename_i h2
        exfalso
        rcases h2 with h2 | h2
        · exact absurd h2 (by decide)
        · omega
      · refine ⟨?_, ?_, ?_, ?_⟩ <;> first | rfl | trivial
  · intro h61
    simp only [openDirectoryAndFile]
    split
    · constructor <;> rfl
    · split
      · constructor <;> rfl
      · rename_i hov
        exfalso
        apply hov
        right
        omega

/-- Claim C3 witness: now = 100000 with stored "41000" (59 s before) and
stored "39000" (61 s before). -/
theorem append_throttle_boundary_app :
    ((handleChatOperation Op.append 100000 none (fun _ => []) [] [] (some "Y") none
      { dirExists := true, fileContent := some "OLD", stored := some "41000" }).editorOpened
        = false ∧
     (handleChatOperation Op.append 100000 none (fun _ => []) [] [] (some "Y") none
      { dirExists := true, fileContent := some "OLD", stored := some "41000" }).appendHud
        = true ∧
     (handleChatOperation Op.append 100000 none (fun _ => []) [] [] (some "Y") none
      { dirExists := true, fileContent := some "OLD", stored := some "41000" }).state.stored
        = some "41000" ∧
     (handleChatOperation Op.append 100000 none (fun _ => []) [] [] (some "Y") none
      { dirExists := true, fileContent := some "OLD", stored := some "41000" }).state.fileContent
        = some ("OLD" ++ "\n\n\n" ++ "Y"))
    ∧ ((handleChatOperation Op.append 100000 none (fun _ => []) [] [] (some "Y") none
      { dirExists := true, fileContent := some "OLD", stored := some "39000" }).editorOpened
        = true ∧
     (handleChatOperation Op.append 100000 none (fun _ => []) [] [] (some "Y") none
      { dirExists := true, fileContent := some "OLD", stored := some "39000" }).state.stored
        = some "100000") :=
  ⟨(append_throttle_boundary 100000
      { dirExists := true, fileContent := some "OLD", stored := some "41000" } none "Y"
      (of_decide_eq_true (by with_unfolding_all rfl))).1
      (of_decide_eq_true (by with_unfolding_all rfl)),
   (append_throttle_boundary 100000
      { dirExists := true, fileContent := some "OLD", stored := some "39000" } none "Y"
      (of_decide_eq_true (by with_unfolding_all rfl))).2
      (of_decide_eq_true (by with_unfolding_all rfl))⟩

/-- Claim C4: per invocation exactly one source contributes — when the
selection source resolves non-empty text, neither `getSelectedText` nor
the clipboard is queried; when it resolves empty and the highlighted
text is non-empty, the clipboard is not queried. -/
theorem source_fallback_exclusive :
    ∀ (op : Op) (now : Int) (pref : Option String) (sched : String → List Nat)
      (tp : List Nat) (sel : List (String × FSEntry)) (selText clip : Option String)
      (st : SysState),
    (getContentFromSelectedItems sched tp sel ≠ "" →
      (handleChatOperation op now pref sched tp sel selText clip st).queriedText = false ∧
      (handleChatOperation op now pref sched tp sel selText clip st).queriedClipboard = false)
    ∧ (∀ t : String,
      getContentFromSelectedItems sched tp sel = "" → selText = some t → t ≠ "" →
      (handleChatOperation op now pref sched tp sel selText clip st).queriedText = true ∧
      (handleChatOperation op now pref sched tp sel selText clip st).queriedClipboard = false) := by
  intro op now pref sched tp sel selText clip st
  constructor
  · intro h
    constructor <;> simp [handleChatOperation, h]
  · intro t h0 hst htxt
    subst hst
    constructor <;> simp [handleChatOperation, h0, htxt]

/-- Claim C4 witness: a one-file selection suppresses both fallback
queries; an empty selection with highlighted text "x" suppresses the
clipboard query. -/
theorem source_fallback_exclusive_app :
    ((handleChatOperation Op.write 1000000 none (fun _ => [0]) [0]
        [("a.txt", FSEntry.file "a.txt" (some "hi"))] (some "t") (some "c")
        { dirExists := true, fileContent := none, stored := none }).queriedText = false ∧
     (handleChatOperation Op.write 1000000 none (fun _ => [0]) [0]
        [("a.txt", FSEntry.file "a.txt" (some "hi"))] (some "t") (some "c")
        { dirExists := true, fileContent := none, stored := none }).queriedClipboard = false)
    ∧ ((handleChatOperation Op.write 1000000 none (fun _ => [0]) [0]
        [] (some "x") (some "c")
        { dirExists := true, fileContent := none, stored := none }).queriedText = true ∧
     (handleChatOperation Op.write 1000000 none (fun _ => [0]) [0]
        [] (some "x") (some "c")
        { dirExists := true, fileContent := none, stored := none }).queriedClipboard = false) :=
  ⟨(source_fallback_exclusive Op.write 1000000 none (fun _ => [0]) [0]
      [("a.txt", FSEntry.file "a.txt" (some "hi"))] (some "t") (some "c")
      { dirExists := true, fileContent := none, stored := none }).1
      (of_decide_eq_true (by with_unfolding_all rfl)),
   (source_fallback_exclusive Op.write 1000000 none (fun _ => [0]) [0]
      [] (some "x") (some "c")
      { dirExists := true, fileContent := none, stored := none }).2 "x"
      rfl rfl (of_decide_eq_true (by with_unfolding_all rfl))⟩

/-- The round-trip scenario tree: a folder holding `a.txt` ("hello"),
`b.png` (arbitrary bytes), and a nested folder holding `c.txt`
("world"). -/
def rtFolder : FSList :=
  FSList.cons (FSEntry.file "a.txt" (some "hello"))
    (FSList.cons (FSEntry.file "b.png" (some "01010"))
      (FSList.cons
        (FSEntry.dir "sub" (FSList.cons (FSEntry.file "c.txt" (some "world")) FSList.nil))
        FSList.nil))

/-- The round-trip selection: the folder selected in Finder. -/
def rtSelection : List (String × FSEntry) := [("folder", FSEntry.dir "folder" rtFolder)]

/-- The resolved selection-source text of the round-trip scenario (with
completion in enumeration order). -/
def rtOutput : String := getContentFromSelectedItems (fun _ => [0, 1]) [0] rtSelection

set_option maxRecDepth 200000 in
/-- Claim C5: the round-trip `write` stores the aggregated text, whose
count line reports 2 files and whose content holds "hello" and "world"
verbatim plus a placeholder line for `b.png`; and in general `countFiles`
computes exactly the spec's count — the number of non-ignored, non-binary
plain files in the subtree, directories and ignored/binary entries
contributing zero — whenever every visited enumeration succeeds. -/
theorem roundtrip_and_file_count :
    ((handleChatOperation Op.write 1000000 none (fun _ => [0, 1]) [0] rtSelection none none
        { dirExists := true, fileContent := none, stored := none }).state.fileContent
      = some rtOutput)
    ∧ listPrefixCheck ("Total Files: 2\n").data rtOutput.data = true
    ∧ strContains "hello" rtOutput = true
    ∧ strContains "world" rtOutput = true
    ∧ strContains "File: folder/b.png (content ignored)" rtOutput = true
    ∧ (∀ e, enumOkE e = true → countFilesE e = Except.ok (specFileCount e)) := by
  refine ⟨?_, ?_, ?_, ?_, ?_, ?_⟩
  · exact of_decide_eq_true (by with_unfolding_all rfl)
  · exact of_decide_eq_true (by with_unfolding_all rfl)
  · exact of_decide_eq_true (by with_unfolding_all rfl)
  · exact of_decide_eq_true (by with_unfolding_all rfl)
  · exact of_decide_eq_true (by with_unfolding_all rfl)
  · refine fsInductE
      (fun e => enumOkE e = true → countFilesE e = Except.ok (specFileCount e))
      (fun l => enumOkList l = true → countListE l = Except.ok (specFileCountList l))
      ?_ ?_ ?_ ?_ ?_
    · intro n c _
      simp [countFilesE, specFileCount]
    · intro n h
      simp [enumOkE] at h
    · intro n l ih h
      simp only [enumOkE] at h
      simp [countFilesE, specFileCount, ih h]
    · intro _
      rfl
    · intro e l ihe ihl h
      simp only [enumOkList, Bool.and_eq_true, Bool.or_eq_true] at h
      obtain ⟨h1, h2⟩ := h
      by_cases hig : isIgnoredItem e.name = true
      · simp [countListE, specFileCountList, hig, ihl h2]
      · have he : enumOkE e = true := by
          rcases h1 with h1 | h1
          · exact absurd h1 hig
          · exact h1
        simp [countListE, specFileCountList, hig, ihe he, ihl h2]

/-- Claim C5 witness: the count law applied to the scenario folder, whose
spec count evaluates to 2. -/
theorem roundtrip_and_file_count_app :
    enumOkE (FSEntry.dir "folder" rtFolder) = true ∧
    specFileCount (FSEntry.dir "folder" rtFolder) = 2 ∧
    countFilesE (FSEntry.dir "folder" rtFolder)
      = Except.ok (specFileCount (FSEntry.dir "folder" rtFolder)) :=
  ⟨of_decide_eq_true (by with_unfolding_all rfl),
   of_decide_eq_true (by with_unfolding_all rfl),
   roundtrip_and_file_count.2.2.2.2.2 (FSEntry.dir "folder" rtFolder)
     (of_decide_eq_true (by with_unfolding_all rfl))⟩

/-- A selection whose directory holds a subdirectory with a failing
enumeration: `countFiles` rejects, so the resolver's catch discards the
output. -/
def failSelection : List (String × FSEntry) :=
  [("d", FSEntry.dir "d" (FSList.cons (FSEntry.dirFail "s") FSList.nil))]

/-- Claim C6 (counterexample): with an enumeration-failing subdirectory
in the selected folder, `getContentFromSelectedItems` yields the empty
string — no "(read failed)" placeholder is rendered anywhere and the
rest of the walk is abandoned, because `countFiles` propagates the
`readdir` rejection to the resolver's catch. -/
theorem walker_failure_cex :
    getContentFromSelectedItems (fun _ => [0]) [0] failSelection = ""
    ∧ strContains "read failed"
        (getContentFromSelectedItems (fun _ => [0]) [0] failSelection) = false :=
  of_decide_eq_true (by with_unfolding_all rfl)

/-- Claim C6 (amended): inside `readDirectoryContents` the claimed
failure semantics do hold — an enumeration failure at the walked root is
rendered as a single directory-level "(read failed)" part, and a failed
file read is rendered as a per-file "(read failed)" part while the rest
of the walk continues — but the counting/structure passes of
`getContentFromSelectedItems` propagate subtree enumeration failures to
that function's catch, which abandons the output (empty result, no
placeholder); the orchestrator still never sees an exception. -/
theorem walker_failure_semantics :
    (∀ (sched : String → List Nat) (d b : String),
      ("Directory: " ++ d ++ " (read failed)\n") ∈ readDirectoryParts sched d b none)
    ∧ (∀ (sched : String → List Nat) (d b name : String) (rest : FSList),
      isIgnoredItem name = false → isBinaryOrMediaFile name = false →
      0 ∈ sched d →
      ("File: " ++ pjoin b name ++ " (read failed)\n")
        ∈ readDirectoryParts sched d b
            (some (FSList.cons (FSEntry.file name none) rest)))
    ∧ getContentFromSelectedItems (fun _ => [0]) [0] failSelection = "" := by
  refine ⟨?_, ?_, ?_⟩
  · intro sched d b
    simp [readDirectoryParts, dirFailParts]
  · intro sched d b name rest hig hbin h0
    simp only [readDirectoryParts, dirParts]
    refine List.mem_append_right _ ?_
    rw [applyPerm]
    refine List.mem_filterMap.mpr ⟨0, h0, ?_⟩
    simp [entryBlocks, entryBlock, hig, hbin]
  · exact of_decide_eq_true (by with_unfolding_all rfl)

/-- Claim C6 witness: the per-file failure placeholder for `x.txt` in a
one-file directory, with the single awaited task completing. -/
theorem walker_failure_semantics_app :
    isIgnoredItem "x.txt" = false ∧ isBinaryOrMediaFile "x.txt" = false ∧
    ("File: " ++ pjoin "" "x.txt" ++ " (read failed)\n")
      ∈ readDirectoryParts (fun _ => [0]) "d" ""
          (some (FSList.cons (FSEntry.file "x.txt" none) FSList.nil)) :=
  ⟨of_decide_eq_true (by with_unfolding_all rfl),
   of_decide_eq_true (by with_unfolding_all rfl),
   walker_failure_semantics.2.1 (fun _ => [0]) "d" "" "x.txt" FSList.nil
     (of_decide_eq_true (by with_unfolding_all rfl))
     (of_decide_eq_true (by with_unfolding_all rfl))
     (of_decide_eq_true (by with_unfolding_all rfl))⟩

end ChatAny
